import Mathlib

/-!
# Verification of the space-runtime workflow engine

Shallow embedding, in Lean 4, of the parts of the repository
`services/space-runtime` that the frozen claims are about:

* the intent matcher (`handler.py`, class `SpaceMatcher`),
* the dynamic dispatch executor (`handler.py`, class `SpaceExecutor`),
* the fan-out/fan-in aggregation of the three multi-artifact workflows
  (`spaces/multiproduct_tryon.py`, `spaces/product_swap.py`,
  `spaces/store_display_banner.py`),
* the request-scoped progress/event bus
  (`shared_libs/libs/streaming.py`).

Python floats for the matcher scores are modelled with exact rationals;
the score constants 0.2 / 0.4 / 0.6 / 0.8 / 0.3 are all exactly
representable and the code caps sums with `min`, so the rational model
agrees with the float computation on every reachable value.

String and regex primitives (`keyword.lower() in prompt`,
`re.search(pattern, prompt)`) are abstracted as boolean oracles
`kwHit : String → Bool` and `patHit : String → Option Bool`
(`none` models a pattern that raises `re.error` and is skipped);
the claims quantify over prompts, so they quantify over these oracles.

Concurrency (`asyncio.gather`) is modelled by the list of settled
outcomes of the launched tasks, in submission order; `asyncio.gather`
with `return_exceptions=True` simply returns that list, and without it
the first raising task aborts the await (modelled as the first raising
outcome in submission order, which is exact whenever at most one stage
raises).
-/

/-- Registry entry as read from `spaces/registry.json` (the fields used
by `SpaceMatcher._calculate_score`: `id`, `keywords`, `patterns`).
The `SpaceInfo` payload embedded in a `MatchResult` is a field-subset
projection of this record; we keep the whole record. -/
structure RegistrySpace where
  id : String
  keywords : List String
  patterns : List String
deriving DecidableEq, Repr

/-- Mirror of the pydantic model `MatchResult` in `handler.py`. -/
structure MatchResult where
  matched : Bool
  space : Option RegistrySpace
  confidence : ℚ
  matchedKeywords : List String
deriving DecidableEq, Repr

/-- The `MatchResult(matched=False, confidence=0.0)` value used
throughout `SpaceMatcher`. -/
def noMatch : MatchResult := ⟨false, none, 0, []⟩

/-- Keyword loop of `SpaceMatcher._calculate_score` (handler.py lines
364-369): 0.2 points per keyword contained in the prompt, collecting
the matched keywords in order. -/
def keywordAccum (kwHit : String → Bool) (keywords : List String) : ℚ × List String :=
  keywords.foldl
    (fun acc kw => if kwHit kw then (acc.1 + 0.2, acc.2 ++ [kw]) else acc)
    (0, [])

/-- Pattern loop of `SpaceMatcher._calculate_score` (handler.py lines
372-381): 0.4 points for the first pattern that searches successfully
(`some true`); `some false` is a non-matching pattern, `none` a pattern
raising `re.error`, both of which continue the loop. -/
def patternBonus (patHit : String → Option Bool) : List String → ℚ × List String
  | [] => (0, [])
  | p :: ps =>
    match patHit p with
    | some true => (0.4, ["pattern:" ++ p])
    | _ => patternBonus patHit ps

/-- `SpaceMatcher._calculate_score` (handler.py lines 358-383):
keyword points capped at 0.6, plus the single pattern bonus. -/
def calculate_score (kwHit : String → Bool) (patHit : String → Option Bool)
    (sp : RegistrySpace) : ℚ × List String :=
  let kres := keywordAccum kwHit sp.keywords
  let pres := patternBonus patHit sp.patterns
  (min kres.1 0.6 + pres.1, kres.2 ++ pres.2)

/-- Best-scoring space loop of `SpaceMatcher._rule_based_match`
(handler.py lines 249-259): strict improvement (`score > best_score`)
starting from score 0 and no space. -/
def rule_best (registry : List RegistrySpace) (kwHit : String → Bool)
    (patHit : String → Option Bool) : ℚ × Option RegistrySpace × List String :=
  registry.foldl
    (fun acc sp =>
      let r := calculate_score kwHit patHit sp
      if acc.1 < r.1 then (r.1, some sp, r.2) else acc)
    (0, none, [])

/-- `SpaceMatcher._rule_based_match` (handler.py lines 246-269):
matched when a best space exists and its score is at least 0.3;
reported confidence is `min(best_score, 1.0)`. -/
def rule_based_match (registry : List RegistrySpace) (kwHit : String → Bool)
    (patHit : String → Option Bool) : MatchResult :=
  let b := rule_best registry kwHit patHit
  match b.2.1 with
  | some sp => if 0.3 ≤ b.1 then ⟨true, some sp, min b.1 1, b.2.2⟩ else noMatch
  | none => noMatch

/-- Parsed body of the semantic collaborator's HTTP reply:
either JSON that fails to parse, or the parsed record with the fields
`matched`, `confidence` (0 when absent), `space_id` and `reasoning`. -/
inductive LLMBody
  | malformed
  | parsed (matched : Bool) (confidence : ℚ) (spaceId : Option String)
      (reasoning : Option String)
deriving DecidableEq, Repr

/-- Transport-level outcome of the semantic collaborator call:
an exception (timeout, network failure, ...) or an HTTP response with a
status code and body. -/
inductive LLMTransport
  | exception (msg : String)
  | response (status : Nat) (body : LLMBody)
deriving DecidableEq, Repr

/-- `SpaceMatcher._llm_intent_match` (handler.py lines 271-356):
no API key, any raised exception, a non-200 status or an unparseable
body all yield `MatchResult(matched=False, confidence=0.0)`; a parsed
reply is accepted only when it reports matched with confidence at least
0.6 and names a registered space id. Note that the accepted confidence
is taken verbatim from the reply, without clamping. -/
def llm_intent_match (registry : List RegistrySpace) (apiKey : Bool)
    (t : LLMTransport) : MatchResult :=
  if apiKey = false then noMatch
  else
    match t with
    | .exception _ => noMatch
    | .response status body =>
      if status ≠ 200 then noMatch
      else
        match body with
        | .malformed => noMatch
        | .parsed m conf sid reasoning =>
          if m = true ∧ 0.6 ≤ conf then
            match registry.find? (fun sp => sid = some sp.id) with
            | some sp => ⟨true, some sp, conf, ["intent:" ++ reasoning.getD "LLM matched"]⟩
            | none => ⟨false, none, conf, []⟩
          else ⟨false, none, conf, []⟩

/-- `SpaceMatcher.match` (handler.py lines 214-238). The second
component of the result records whether the semantic (LLM) tier was
invoked, instrumenting the collaborator call counter of the spec's
testable property. -/
def matchFn (registry : List RegistrySpace) (kwHit : String → Bool)
    (patHit : String → Option Bool) (useLLM : Bool) (apiKey : Bool)
    (t : LLMTransport) : MatchResult × Bool :=
  let rule := rule_based_match registry kwHit patHit
  if 0.8 ≤ rule.confidence then (rule, false)
  else if useLLM then
    let llm := llm_intent_match registry apiKey t
    if llm.matched then (llm, true)
    else if rule.matched then (rule, true)
    else (noMatch, true)
  else if rule.matched then (rule, false)
  else (noMatch, false)

/-- The semantic collaborator call failed: a raised exception
(timeout, transport error), a non-success HTTP status, or a reply whose
body could not be parsed. -/
def llmFailure (t : LLMTransport) : Prop :=
  (∃ msg, t = .exception msg) ∨
  (∃ s b, t = .response s b ∧ s ≠ 200) ∨
  (∃ s, t = .response s .malformed)

/-! ## Dynamic dispatch executor (`handler.py`, `SpaceExecutor`) -/

/-- Argument-passing convention recorded in `SpaceExecutor.SPACE_MODULES`:
`kwargs` means the entry point is called as `func(**inputs)`, `body`
means `func(inputs)`. -/
inductive CallStyle
  | kwargs
  | body
deriving DecidableEq, Repr

/-- Python exception raised by workflow code, distinguishing
`ImportError` (matched by the first `except` clause of
`SpaceExecutor.execute`) from every other exception. -/
inductive PyExc
  | importError (msg : String)
  | other (msg : String)
deriving DecidableEq, Repr

/-- The structured result dictionary a workflow entry point returns,
mirroring the shape `{success, error, outputAssets}` that
`SpaceExecutor.execute` forwards unchanged. Output assets are kept
abstract as strings. -/
structure SpaceOutput where
  success : Bool
  error : Option String
  outputAssets : List String
deriving DecidableEq, Repr

/-- Behavior of one call to a workflow entry point: it either returns a
result or raises an exception. -/
inductive EntryOutcome
  | ok (r : SpaceOutput)
  | raises (e : PyExc)
deriving DecidableEq, Repr

/-- Environment of one workflow module as the executor sees it:
the outcome of `importlib.import_module` on its path, whether the entry
point is a coroutine function, and the behavior of calling the entry
point under a given calling convention. -/
structure ModuleEnv where
  importResult : Except String Unit
  isAsync : Bool
  run : CallStyle → EntryOutcome

/-- Outcome of `SpaceExecutor.execute` itself: it either raises
(`ValueError`, modelled with its message) or returns a value. -/
inductive ExecOutcome
  | raised (msg : String)
  | value (r : SpaceOutput)
deriving DecidableEq, Repr

/-- The static dispatch table `SpaceExecutor.SPACE_MODULES`
(handler.py lines 148-154): space id, module path, function name,
calling convention. -/
def SPACE_MODULES : List (String × String × String × CallStyle) :=
  [("product-swap", "spaces.product_swap", "product_swap_workflow", .kwargs),
   ("steal-the-look", "spaces.steal_the_look", "steal_the_look_workflow", .kwargs),
   ("sketch-to-product", "spaces.sketch_to_product", "_sketch_to_product_workflow", .body),
   ("background-remover", "spaces.background_remover", "_remove_background", .body),
   ("store-display-banner", "spaces.store_display_banner", "store_display_banner_execute", .body)]

/-- Lookup of a space id in `SPACE_MODULES`. -/
def lookupSpaceModule (spaceId : String) : Option (String × String × CallStyle) :=
  (SPACE_MODULES.find? (fun e => e.1 = spaceId)).map (fun e => e.2)

/-- `SpaceExecutor.execute` (handler.py lines 156-193). An unknown id
raises `ValueError` before the `try` block. Inside the `try` block the
module is imported and the entry point called, as a coroutine or via
`run_in_executor`, with either convention; an exception propagating
from an `await` behaves identically in all four combinations, hence the
isAsync branch joins. The `except ImportError` clause fires for an
`ImportError` raised anywhere inside the `try` block, including one
raised by the entry point itself, and re-raises `ValueError`; the
`except Exception` clause converts every other exception into the
structured failure dictionary. -/
def execute (env : String → ModuleEnv) (spaceId : String) : ExecOutcome :=
  match lookupSpaceModule spaceId with
  | none => .raised ("Unknown space: " ++ spaceId)
  | some (modPath, _funcName, style) =>
    let m := env modPath
    match m.importResult with
    | .error e => .raised ("Space module not found: " ++ modPath ++ ". Error: " ++ e)
    | .ok _ =>
      match (if m.isAsync then m.run style else m.run style) with
      | .ok r => .value r
      | .raises (.importError e) =>
          .raised ("Space module not found: " ++ modPath ++ ". Error: " ++ e)
      | .raises (.other e) => .value ⟨false, some e, []⟩

/-! ## Fan-out/fan-in aggregation of the multi-artifact workflows -/

/-- Settled outcome of one dependent stage as observed at the
fan-in point: the task raised an exception (with `str(e) = msg`) or
returned a value. -/
inductive StageOutcome (α : Type)
  | exc (msg : String)
  | val (r : α)
deriving DecidableEq, Repr

/-- Return value of `generate_image`
(`shared_libs/utils/image_gen.py`): either a dictionary with the keys
`url`, `id`, `tag`, `source`, or a dictionary with the single key
`error`. The function never raises. -/
inductive GenResult
  | ok (url id tag source : String)
  | err (msg : String)
deriving DecidableEq, Repr

/-- Output asset built by `_run_multiproduct_tryon_workflow`
(multiproduct_tryon.py lines 543-549) from a successful generation:
`{"type": "image", "url", "tag", "source"}`. -/
structure MultiAsset where
  url : String
  tag : String
  source : String
deriving DecidableEq, Repr

/-- Collection loop of `_run_multiproduct_tryon_workflow`
(multiproduct_tryon.py lines 538-552): exceptions are skipped, results
with a url and no error are appended in submission order, error results
are skipped. -/
def multiproduct_collect (rs : List (StageOutcome GenResult)) : List MultiAsset :=
  rs.filterMap (fun o =>
    match o with
    | .val (.ok u _ t s) => some ⟨u, t, s⟩
    | _ => none)

/-- Error messages captured from raising stages, in submission order
(the `errors` list of multiproduct_tryon.py line 573 and
product_swap.py line 500). -/
def stage_exc_msgs (rs : List (StageOutcome GenResult)) : List String :=
  rs.filterMap (fun o =>
    match o with
    | .exc m => some m
    | .val _ => none)

/-- Result record shared by the workflow fan-ins:
`success`, `outputAssets` (submission order) and the optional top-level
`error`. -/
structure WorkflowResult (α : Type) where
  success : Bool
  outputAssets : List α
  error : Option String
deriving DecidableEq, Repr

/-- Fan-in of `_run_multiproduct_tryon_workflow`
(multiproduct_tryon.py lines 572-585): failure with the first captured
exception message (or a canned message) exactly when no image was
collected, success with the collected images otherwise. -/
def multiproduct_fan_in (rs : List (StageOutcome GenResult)) : WorkflowResult MultiAsset :=
  let generated := multiproduct_collect rs
  if generated.length = 0 then
    ⟨false, [], some ((stage_exc_msgs rs).headD "All image generations failed")⟩
  else ⟨true, generated, none⟩

/-- Clamp of the requested variation count in
`_run_multiproduct_tryon_workflow` (multiproduct_tryon.py line 452):
`min(max(int(num_variations), 1), 15)`. -/
def multiproduct_clamp_variations (n : ℤ) : ℤ := min (max n 1) 15

/-- Output asset built by `_generate_single_swap_image`
(product_swap.py lines 453-461). -/
structure SwapAsset where
  url : String
  tag : String
  assetId : String
  source : String
deriving DecidableEq, Repr

/-- Item of the `asyncio.gather` result list in `product_swap_workflow`
(product_swap.py line 475): an exception that escaped the stage
coroutine, the `None` a stage returns after catching its own failure,
or a successful asset. -/
inductive SwapGatherItem
  | exc (msg : String)
  | noneResult
  | asset (a : SwapAsset)
deriving DecidableEq, Repr

/-- `_generate_single_swap_image` (product_swap.py lines 417-464) as a
function of the settled `generate_image` outcome: an exception is
caught by the stage's own try/except and becomes `None`, an error
result becomes `None`, a success becomes an asset. -/
def generate_single_swap_image (g : StageOutcome GenResult) : SwapGatherItem :=
  match g with
  | .exc _ => .noneResult
  | .val (.err _) => .noneResult
  | .val (.ok u i t s) => .asset ⟨u, t, i, s⟩

/-- Captured exception messages of the product-swap gather list
(product_swap.py line 500). -/
def swap_exc_msgs (rs : List SwapGatherItem) : List String :=
  rs.filterMap (fun o =>
    match o with
    | .exc m => some m
    | _ => none)

/-- Successful assets of the product-swap gather list, in submission
order (product_swap.py lines 480-489). -/
def swap_assets (rs : List SwapGatherItem) : List SwapAsset :=
  rs.filterMap (fun o =>
    match o with
    | .asset a => some a
    | _ => none)

/-- Fan-in of `product_swap_workflow` (product_swap.py lines 479-511):
exceptions and `None` results are skipped; failure with the first
captured exception message (or a canned message) exactly when no asset
was produced. -/
def product_swap_fan_in (rs : List SwapGatherItem) : WorkflowResult SwapAsset :=
  let assets := swap_assets rs
  if assets.length = 0 then
    ⟨false, [], some ((swap_exc_msgs rs).headD "All image generations failed")⟩
  else ⟨true, assets, none⟩

/-- Prompt-padding loop of `run_poster_design_workflow`
(store_display_banner.py lines 309-316): when fewer prompts than
variations were parsed, the first prompt is repeated; with no prompts
at all a `ValueError` is raised. -/
def pad_generation_prompts (prompts : List String) (numVariations : Nat) :
    Except String (List String) :=
  if prompts.length < numVariations then
    match prompts with
    | [] => .error "No prompts generated for store display banner"
    | p0 :: _ => .ok (prompts ++ List.replicate (numVariations - prompts.length) p0)
  else .ok prompts

/-- Task-building loop of `run_poster_design_workflow`
(store_display_banner.py lines 321-337): one generation task per
variation number 1..numVariations, each combining the prompt at that
index with the negative prompt. The requested count is used as is;
no clamping is applied anywhere in this workflow. The index default is
never reached because padding guarantees enough prompts. -/
def store_banner_fan_out (prompts : List String) (negativePrompt : String)
    (numVariations : Nat) : Except String (List String) :=
  (pad_generation_prompts prompts numVariations).map (fun ps =>
    (List.range numVariations).map (fun i =>
      ps.getD i "" ++ "\n\nNegative prompt: " ++ negativePrompt))

/-- Fan-in of `run_poster_design_workflow` (store_display_banner.py
lines 339-376): `asyncio.gather` is called without
`return_exceptions=True`, so a raising stage aborts the await and the
outer `except` clause returns a zero-asset failure carrying that
exception's message; when no stage raises, the workflow returns
`success=True` with every settled result (error results included) as
output assets. -/
def store_banner_fan_in (rs : List (StageOutcome GenResult)) : WorkflowResult GenResult :=
  match stage_exc_msgs rs with
  | [] =>
    ⟨true,
     rs.filterMap (fun o =>
       match o with
       | .val g => some g
       | .exc _ => none),
     none⟩
  | m :: _ => ⟨false, [], some m⟩

/-- Number of actual artifacts (results carrying a url) among the
output assets of the store-display-banner workflow. -/
def store_banner_artifact_count (r : WorkflowResult GenResult) : Nat :=
  (r.outputAssets.filter (fun g =>
    match g with
    | .ok _ _ _ _ => true
    | .err _ => false)).length

/-- A settled multiproduct stage outcome that is a successful
generation. -/
def StageOutcome.isOkGen : StageOutcome GenResult → Bool
  | .val (.ok _ _ _ _) => true
  | _ => false

/-- A product-swap gather item that is a successful asset. -/
def SwapGatherItem.isAsset : SwapGatherItem → Bool
  | .asset _ => true
  | _ => false

/-! ## Progress/event bus (`shared_libs/libs/streaming.py`)

The module keeps a module-level `ProgressStore` holding two Python
lists, `events` and `images`. To make the aliasing behavior of
`list.copy()` provable (claims about snapshot semantics), lists are
modelled as references into an explicit heap `Nat → List Event`; the
store holds the two references, `list.copy()` allocates a fresh
reference carrying the same value, `list.append` and `list.clear`
mutate in place through the stored reference. The SSE mirroring and
the fire-and-forget logging calls have no effect on the store and are
not modelled. -/

/-- Event dictionary recorded by `stream_progress` / `stream_image`
(streaming.py lines 71-80 and 100-105); the float timestamp is
modelled as an abstract tick. -/
inductive Event
  | progress (id status : String) (timestamp : Nat) (waitFor : Option Nat)
      (message : Option String)
  | image (url label : String) (timestamp : Nat)
deriving DecidableEq, Repr

/-- State of the streaming module: the heap of list references, the
next fresh reference, and the two references held by the module-level
`ProgressStore` (streaming.py lines 45-53). -/
structure BusState where
  heap : Nat → List Event
  next : Nat
  eventsRef : Nat
  imagesRef : Nat

/-- In-place mutation of the list behind a reference. -/
def heapWrite (s : BusState) (r : Nat) (v : List Event) : BusState :=
  { s with heap := fun x => if x = r then v else s.heap x }

/-- `stream_progress` (streaming.py lines 56-89): appends a progress
event to the stored events list. -/
def stream_progress (s : BusState) (id status : String) (ts : Nat)
    (waitFor : Option Nat) (message : Option String) : BusState :=
  heapWrite s s.eventsRef (s.heap s.eventsRef ++ [.progress id status ts waitFor message])

/-- `stream_image` (streaming.py lines 92-112): appends an image event
to the stored images list. -/
def stream_image (s : BusState) (url label : String) (ts : Nat) : BusState :=
  heapWrite s s.imagesRef (s.heap s.imagesRef ++ [.image url label ts])

/-- `get_progress_events` (streaming.py lines 115-117): returns
`_store.events.copy()`, a fresh reference holding the current value of
the stored events list. -/
def get_progress_events (s : BusState) : Nat × BusState :=
  (s.next, { heapWrite s s.next (s.heap s.eventsRef) with next := s.next + 1 })

/-- `get_image_events` (streaming.py lines 120-122): returns
`_store.images.copy()`. -/
def get_image_events (s : BusState) : Nat × BusState :=
  (s.next, { heapWrite s s.next (s.heap s.imagesRef) with next := s.next + 1 })

/-- `clear_events` (streaming.py lines 125-129): clears both stored
lists in place. -/
def clear_events (s : BusState) : BusState :=
  heapWrite (heapWrite s s.eventsRef []) s.imagesRef []

/-- Well-formedness of the allocator state: both store references were
allocated (are below `next`) and are distinct. Holds for the state the
module builds at import time and is preserved by every operation. -/
def BusState.WellFormed (s : BusState) : Prop :=
  s.eventsRef < s.next ∧ s.imagesRef < s.next ∧ s.eventsRef ≠ s.imagesRef

/-! ## Concrete demonstration values used by witnesses and
counterexamples -/

/-- Registry with one space scoring 0.8 when every keyword and pattern
oracle fires. -/
def demoRegistry : List RegistrySpace := [⟨"demo", ["a", "b"], ["p"]⟩]

/-- Registry entry with no keywords and no patterns, so the rule tier
never matches it. -/
def demoSilentRegistry : List RegistrySpace := [⟨"demo", [], []⟩]

/-- Semantic reply reporting a match with confidence 3/2, above 1. -/
def demoOverConfident : LLMTransport :=
  .response 200 (.parsed true (3/2) (some "demo") none)

/-- Module environment in which every entry point raises
`ImportError("boom")` while the module import itself succeeds. -/
def demoImportRaisingEnv : String → ModuleEnv :=
  fun _ => ⟨Except.ok (), true, fun _ => .raises (.importError "boom")⟩

/-- Module environment in which every entry point raises an ordinary
exception. -/
def demoFailingEnv : String → ModuleEnv :=
  fun _ => ⟨Except.ok (), false, fun _ => .raises (.other "stage blew up")⟩

/-- Bus state holding one progress event and one image event, with the
store references 0 and 1 and next fresh reference 2 (the state reached
from the import-time state after one `stream_progress` and one
`stream_image`). -/
def demoBus : BusState :=
  { heap := fun r =>
      if r = 0 then [.progress "analyze-request" "started" 0 (some 15) none]
      else if r = 1 then [.image "https://x/img.png" "First shot" 1]
      else [],
    next := 2,
    eventsRef := 0,
    imagesRef := 1 }

/-- The fold step of `rule_best`, named so the fold can be reasoned
about by induction; `rule_best` unfolds to a fold of this step. -/
def rule_best_step (kwHit : String → Bool) (patHit : String → Option Bool) :
    (ℚ × Option RegistrySpace × List String) → RegistrySpace →
      (ℚ × Option RegistrySpace × List String) :=
  fun acc sp =>
    let r := calculate_score kwHit patHit sp
    if acc.1 < r.1 then (r.1, some sp, r.2) else acc

/-- The best rule-tier score over the registry (the `best_score`
variable of `_rule_based_match`). -/
def rule_score (registry : List RegistrySpace) (kwHit : String → Bool)
    (patHit : String → Option Bool) : ℚ :=
  (rule_best registry kwHit patHit).1

/-- Fan-out of three store-display-banner stages in which exactly the
second stage raises. -/
def demoBannerOutcomes : List (StageOutcome GenResult) :=
  [.val (.ok "https://x/u1.png" "f1" "t1" "Gemini"),
   .exc "boom",
   .val (.ok "https://x/u2.png" "f2" "t2" "Gemini")]

/-! ## Lemmas about the rule tier -/

theorem keywordAccum_go (kwHit : String → Bool) (l : List String) :
    ∀ (q : ℚ) (ks : List String),
      (l.foldl (fun acc kw => if kwHit kw then (acc.1 + 0.2, acc.2 ++ [kw]) else acc) (q, ks)).1
        = q + 0.2 * ((l.filter kwHit).length : ℚ) := by
  induction l with
  | nil => intro q ks; simp
  | cons kw l ih =>
    intro q ks
    cases h : kwHit kw with
    | true =>
      simp only [List.foldl_cons, h, if_true]
      rw [ih]
      simp only [List.filter_cons, h, if_true, List.length_cons]
      push_cast
      ring
    | false =>
      simp only [List.foldl_cons, h, if_false]
      rw [ih, List.filter_cons, h]
      norm_num

theorem keywordAccum_fst (kwHit : String → Bool) (l : List String) :
    (keywordAccum kwHit l).1 = 0.2 * ((l.filter kwHit).length : ℚ) := by
  have h := keywordAccum_go kwHit l 0 []
  simpa [keywordAccum] using h

theorem patternBonus_fst (patHit : String → Option Bool) (ps : List String) :
    (patternBonus patHit ps).1
      = if ps.any (fun p => (patHit p).getD false) then 0.4 else 0 := by
  induction ps with
  | nil => simp [patternBonus]
  | cons p ps ih =>
    cases hp : patHit p with
    | none => simp [patternBonus, hp, ih]
    | some b =>
      cases b
      · simp [patternBonus, hp, ih]
      · simp [patternBonus, hp]

theorem calculate_score_eq (kwHit : String → Bool) (patHit : String → Option Bool)
    (sp : RegistrySpace) :
    (calculate_score kwHit patHit sp).1
      = min 0.6 (0.2 * ((sp.keywords.filter kwHit).length : ℚ))
        + (if sp.patterns.any (fun p => (patHit p).getD false) then 0.4 else 0) := by
  simp only [calculate_score]
  rw [keywordAccum_fst, patternBonus_fst, min_comm]

theorem calculate_score_nonneg (kwHit : String → Bool) (patHit : String → Option Bool)
    (sp : RegistrySpace) : 0 ≤ (calculate_score kwHit patHit sp).1 := by
  rw [calculate_score_eq]
  have h1 : (0:ℚ) ≤ min 0.6 (0.2 * ((sp.keywords.filter kwHit).length : ℚ)) := by
    refine le_min (by norm_num) ?_
    positivity
  have h2 : (0:ℚ) ≤ if sp.patterns.any (fun p => (patHit p).getD false) then 0.4 else 0 := by
    split <;> norm_num
  linarith

theorem calculate_score_le_one (kwHit : String → Bool) (patHit : String → Option Bool)
    (sp : RegistrySpace) : (calculate_score kwHit patHit sp).1 ≤ 1 := by
  rw [calculate_score_eq]
  have h1 : min 0.6 (0.2 * ((sp.keywords.filter kwHit).length : ℚ)) ≤ 0.6 := min_le_left _ _
  have h2 : (if sp.patterns.any (fun p => (patHit p).getD false) then (0.4:ℚ) else 0) ≤ 0.4 := by
    split <;> norm_num
  linarith

theorem rule_best_eq_fold (registry : List RegistrySpace) (kwHit : String → Bool)
    (patHit : String → Option Bool) :
    rule_best registry kwHit patHit
      = registry.foldl (rule_best_step kwHit patHit) (0, none, []) := rfl

theorem rule_best_step_fst_le (kwHit : String → Bool) (patHit : String → Option Bool)
    (acc : ℚ × Option RegistrySpace × List String) (sp : RegistrySpace) :
    acc.1 ≤ (rule_best_step kwHit patHit acc sp).1 := by
  simp only [rule_best_step]
  split
  · exact le_of_lt (by assumption)
  · exact le_refl _

theorem rule_best_fold_fst_le (kwHit : String → Bool) (patHit : String → Option Bool)
    (l : List RegistrySpace) :
    ∀ acc, acc.1 ≤ (l.foldl (rule_best_step kwHit patHit) acc).1 := by
  induction l with
  | nil => intro acc; exact le_refl _
  | cons sp l ih =>
    intro acc
    exact le_trans (rule_best_step_fst_le kwHit patHit acc sp) (ih _)

theorem rule_best_fold_some (kwHit : String → Bool) (patHit : String → Option Bool)
    (l : List RegistrySpace) :
    ∀ acc, (acc.2.1).isSome = true →
      ((l.foldl (rule_best_step kwHit patHit) acc).2.1).isSome = true := by
  induction l with
  | nil => intro acc h; exact h
  | cons sp l ih =>
    intro acc h
    refine ih _ ?_
    simp only [rule_best_step]
    split
    · rfl
    · exact h

theorem rule_best_fold_none (kwHit : String → Bool) (patHit : String → Option Bool)
    (l : List RegistrySpace) :
    ∀ acc, ((l.foldl (rule_best_step kwHit patHit) acc).2.1) = none →
      l.foldl (rule_best_step kwHit patHit) acc = acc := by
  induction l with
  | nil => intro acc _; rfl
  | cons sp l ih =>
    intro acc h
    rw [List.foldl_cons] at h ⊢
    by_cases hlt : acc.1 < (calculate_score kwHit patHit sp).1
    · exfalso
      have hsome : ((rule_best_step kwHit patHit acc sp).2.1).isSome = true := by
        simp only [rule_best_step, hlt, if_true]
        rfl
      have := rule_best_fold_some kwHit patHit l _ hsome
      rw [h] at this
      simp at this
    · have hstep : rule_best_step kwHit patHit acc sp = acc := by
        simp only [rule_best_step, hlt, if_false]
      rw [hstep] at h ⊢
      exact ih acc h

theorem rule_score_nonneg (registry : List RegistrySpace) (kwHit : String → Bool)
    (patHit : String → Option Bool) : 0 ≤ rule_score registry kwHit patHit := by
  have h := rule_best_fold_fst_le kwHit patHit registry (0, none, [])
  simpa [rule_score, rule_best_eq_fold] using h

theorem rule_best_none_zero (registry : List RegistrySpace) (kwHit : String → Bool)
    (patHit : String → Option Bool)
    (h : (rule_best registry kwHit patHit).2.1 = none) :
    rule_score registry kwHit patHit = 0 := by
  rw [rule_best_eq_fold] at h
  have := rule_best_fold_none kwHit patHit registry (0, none, []) h
  simp [rule_score, rule_best_eq_fold, this]

theorem rule_matched_iff (registry : List RegistrySpace) (kwHit : String → Bool)
    (patHit : String → Option Bool) :
    (rule_based_match registry kwHit patHit).matched = true
      ↔ 0.3 ≤ rule_score registry kwHit patHit := by
  unfold rule_based_match
  cases hb : (rule_best registry kwHit patHit).2.1 with
  | none =>
    have h0 := rule_best_none_zero registry kwHit patHit hb
    simp only [hb]
    rw [h0]
    simp [noMatch]
    norm_num
  | some sp =>
    simp only [hb]
    by_cases h3 : (0.3:ℚ) ≤ (rule_best registry kwHit patHit).1
    · simp [h3, rule_score]
    · simp [h3, rule_score, noMatch]

theorem rule_conf_nonneg (registry : List RegistrySpace) (kwHit : String → Bool)
    (patHit : String → Option Bool) :
    0 ≤ (rule_based_match registry kwHit patHit).confidence := by
  cases hb : (rule_best registry kwHit patHit).2.1 with
  | none => simp [rule_based_match, hb, noMatch]
  | some sp =>
    by_cases h3 : (0.3:ℚ) ≤ (rule_best registry kwHit patHit).1
    · have hmin : 0 ≤ min (rule_best registry kwHit patHit).1 1 :=
        le_min (rule_score_nonneg registry kwHit patHit) (by norm_num)
      simpa [rule_based_match, hb, h3] using hmin
    · simp [rule_based_match, hb, h3, noMatch]

theorem rule_conf_le_one (registry : List RegistrySpace) (kwHit : String → Bool)
    (patHit : String → Option Bool) :
    (rule_based_match registry kwHit patHit).confidence ≤ 1 := by
  cases hb : (rule_best registry kwHit patHit).2.1 with
  | none => simp [rule_based_match, hb, noMatch]
  | some sp =>
    by_cases h3 : (0.3:ℚ) ≤ (rule_best registry kwHit patHit).1
    · simp [rule_based_match, hb, h3]
    · simp [rule_based_match, hb, h3, noMatch]

theorem rule_conf_high_score (registry : List RegistrySpace) (kwHit : String → Bool)
    (patHit : String → Option Bool)
    (h : (0.8:ℚ) ≤ (rule_based_match registry kwHit patHit).confidence) :
    0.3 ≤ rule_score registry kwHit patHit := by
  cases hb : (rule_best registry kwHit patHit).2.1 with
  | none =>
    simp only [rule_based_match, hb] at h
    simp [noMatch] at h
    norm_num at h
  | some sp =>
    by_cases h3 : (0.3:ℚ) ≤ (rule_best registry kwHit patHit).1
    · exact h3
    · simp only [rule_based_match, hb, h3, if_false] at h
      simp [noMatch] at h
      norm_num at h

/-! ## Lemmas about the semantic tier and the cascade -/

theorem llm_failure_noMatch (registry : List RegistrySpace) (apiKey : Bool)
    (t : LLMTransport) (h : llmFailure t) :
    llm_intent_match registry apiKey t = noMatch := by
  rcases h with ⟨msg, rfl⟩ | ⟨s, b, rfl, hs⟩ | ⟨s, rfl⟩
  · cases apiKey <;> simp [llm_intent_match]
  · cases apiKey <;> simp [llm_intent_match, hs]
  · cases apiKey <;> by_cases hs : s = 200 <;> simp [llm_intent_match, hs]

theorem llm_matched_shape (registry : List RegistrySpace) (apiKey : Bool)
    (t : LLMTransport) (h : (llm_intent_match registry apiKey t).matched = true) :
    ∃ m c sid rs,
      t = .response 200 (.parsed m c sid rs) ∧
      (llm_intent_match registry apiKey t).confidence = c ∧ 0.6 ≤ c := by
  cases apiKey with
  | false => simp [llm_intent_match, noMatch] at h
  | true =>
    cases t with
    | exception msg => simp [llm_intent_match, noMatch] at h
    | response status body =>
      by_cases hst : status = 200
      · subst hst
        cases body with
        | malformed => simp [llm_intent_match, noMatch] at h
        | parsed m c sid rs =>
          by_cases hg : m = true ∧ (0.6:ℚ) ≤ c
          · cases hf : registry.find? (fun sp => sid = some sp.id) with
            | none => simp [llm_intent_match, hg, hf] at h
            | some sp =>
              exact ⟨m, c, sid, rs, rfl, by simp [llm_intent_match, hg, hf], hg.2⟩
          · simp [llm_intent_match, hg] at h
      · simp [llm_intent_match, hst, noMatch] at h

theorem matchFn_cases (registry : List RegistrySpace) (kwHit : String → Bool)
    (patHit : String → Option Bool) (useLLM : Bool) (apiKey : Bool)
    (t : LLMTransport) :
    (matchFn registry kwHit patHit useLLM apiKey t).1
        = rule_based_match registry kwHit patHit ∨
    ((matchFn registry kwHit patHit useLLM apiKey t).1
        = llm_intent_match registry apiKey t ∧
      (llm_intent_match registry apiKey t).matched = true) ∨
    (matchFn registry kwHit patHit useLLM apiKey t).1 = noMatch := by
  by_cases h8 : (0.8:ℚ) ≤ (rule_based_match registry kwHit patHit).confidence
  · left
    simp [matchFn, h8]
  · cases useLLM with
    | false =>
      by_cases hm : (rule_based_match registry kwHit patHit).matched = true
      · left; simp [matchFn, h8, hm]
      · right; right
        simp only [Bool.not_eq_true] at hm
        simp [matchFn, h8, hm]
    | true =>
      by_cases hl : (llm_intent_match registry apiKey t).matched = true
      · right; left
        exact ⟨by simp [matchFn, h8, hl], hl⟩
      · simp only [Bool.not_eq_true] at hl
        by_cases hm : (rule_based_match registry kwHit patHit).matched = true
        · left; simp [matchFn, h8, hl, hm]
        · right; right
          simp only [Bool.not_eq_true] at hm
          simp [matchFn, h8, hl, hm]

/-! ## Lemmas about the fan-in aggregations -/

theorem multiproduct_collect_nil_iff (rs : List (StageOutcome GenResult)) :
    multiproduct_collect rs = [] ↔ ∀ x ∈ rs, x.isOkGen = false := by
  rw [multiproduct_collect, List.filterMap_eq_nil_iff]
  constructor
  · intro h x hx
    have hx2 := h x hx
    cases x with
    | exc m => rfl
    | val g =>
      cases g with
      | ok u i t s => simp at hx2
      | err m => rfl
  · intro h x hx
    have hx2 := h x hx
    cases x with
    | exc m => rfl
    | val g =>
      cases g with
      | ok u i t s => simp [StageOutcome.isOkGen] at hx2
      | err m => rfl

theorem swap_assets_nil_iff (rs : List SwapGatherItem) :
    swap_assets rs = [] ↔ ∀ x ∈ rs, x.isAsset = false := by
  rw [swap_assets, List.filterMap_eq_nil_iff]
  constructor
  · intro h x hx
    have hx2 := h x hx
    cases x with
    | exc m => rfl
    | noneResult => rfl
    | asset a => simp at hx2
  · intro h x hx
    have hx2 := h x hx
    cases x with
    | exc m => rfl
    | noneResult => rfl
    | asset a => simp [SwapGatherItem.isAsset] at hx2

theorem multiproduct_all_ok (rs : List (StageOutcome GenResult))
    (h : ∀ x ∈ rs, x.isOkGen = true) :
    (multiproduct_collect rs).length = rs.length ∧ stage_exc_msgs rs = [] := by
  induction rs with
  | nil => exact ⟨rfl, rfl⟩
  | cons x rs ih =>
    have hx := h x (List.mem_cons_self x rs)
    have hrest := ih (fun y hy => h y (List.mem_cons_of_mem x hy))
    cases x with
    | exc m => simp [StageOutcome.isOkGen] at hx
    | val g =>
      cases g with
      | err m => simp [StageOutcome.isOkGen] at hx
      | ok u i t s =>
        refine ⟨?_, ?_⟩
        · have h1 := hrest.1
          simp only [multiproduct_collect] at h1 ⊢
          rw [List.filterMap_cons]
          simp [h1]
        · have h2 := hrest.2
          simp only [stage_exc_msgs] at h2 ⊢
          rw [List.filterMap_cons]
          simpa using h2

theorem swap_all_assets (rs : List SwapGatherItem)
    (h : ∀ x ∈ rs, x.isAsset = true) :
    (swap_assets rs).length = rs.length ∧ swap_exc_msgs rs = [] := by
  induction rs with
  | nil => exact ⟨rfl, rfl⟩
  | cons x rs ih =>
    have hx := h x (List.mem_cons_self x rs)
    have hrest := ih (fun y hy => h y (List.mem_cons_of_mem x hy))
    cases x with
    | exc m => simp [SwapGatherItem.isAsset] at hx
    | noneResult => simp [SwapGatherItem.isAsset] at hx
    | asset a =>
      refine ⟨?_, ?_⟩
      · have h1 := hrest.1
        simp only [swap_assets] at h1 ⊢
        rw [List.filterMap_cons]
        simp [h1]
      · have h2 := hrest.2
        simp only [swap_exc_msgs] at h2 ⊢
        rw [List.filterMap_cons]
        simpa using h2

/-! ## Claim theorems -/

theorem demo_rule_eval_strong :
    rule_based_match demoRegistry (fun _ => true) (fun _ => some true)
      = ⟨true, some ⟨"demo", ["a", "b"], ["p"]⟩, 4/5, ["a", "b", "pattern:p"]⟩ := by
  norm_num [rule_based_match, rule_best, calculate_score, keywordAccum, patternBonus,
    demoRegistry, noMatch]
  simp

theorem demo_rule_score_weak :
    rule_score demoRegistry (fun _ => true) (fun _ => none) = 2/5 := by
  norm_num [rule_score, rule_best, calculate_score, keywordAccum, patternBonus,
    demoRegistry]

/-- C5: for every prompt (represented by its keyword/pattern oracles)
and every registered workflow, the rule-tier score equals
min(0.6, 0.2 × number of keyword hits) plus 0.4 if any declared regex
pattern matches (0 otherwise), the score always lies in [0, 1], and the
confidence finally reported by the rule tier is capped into [0, 1]. -/
theorem c5_rule_tier_score_formula (kwHit : String → Bool)
    (patHit : String → Option Bool) (sp : RegistrySpace)
    (registry : List RegistrySpace) :
    (calculate_score kwHit patHit sp).1
      = min 0.6 (0.2 * ((sp.keywords.filter kwHit).length : ℚ))
        + (if sp.patterns.any (fun p => (patHit p).getD false) then 0.4 else 0) ∧
    0 ≤ (calculate_score kwHit patHit sp).1 ∧
    (calculate_score kwHit patHit sp).1 ≤ 1 ∧
    0 ≤ (rule_based_match registry kwHit patHit).confidence ∧
    (rule_based_match registry kwHit patHit).confidence ≤ 1 :=
  ⟨calculate_score_eq kwHit patHit sp,
   calculate_score_nonneg kwHit patHit sp,
   calculate_score_le_one kwHit patHit sp,
   rule_conf_nonneg registry kwHit patHit,
   rule_conf_le_one registry kwHit patHit⟩

/-- C6: whenever the rule tier reports confidence at least 0.8,
match returns the rule-tier result immediately and the semantic tier is
never invoked (the invocation flag is false), regardless of the
useSemantic flag and of whatever the collaborator would have
answered. -/
theorem c6_fast_path_short_circuit (registry : List RegistrySpace)
    (kwHit : String → Bool) (patHit : String → Option Bool)
    (useLLM apiKey : Bool) (t : LLMTransport)
    (h : (0.8:ℚ) ≤ (rule_based_match registry kwHit patHit).confidence) :
    matchFn registry kwHit patHit useLLM apiKey t
      = (rule_based_match registry kwHit patHit, false) := by
  simp [matchFn, h]

/-- Witness for C6 at a concrete registry: two keyword hits plus a
pattern hit give rule-tier confidence exactly 0.8, and match returns
that result without invoking the semantic tier. -/
theorem c6_fast_path_witness :
    ((0.8:ℚ) ≤ (rule_based_match demoRegistry (fun _ => true) (fun _ => some true)).confidence) ∧
    matchFn demoRegistry (fun _ => true) (fun _ => some true) true true (.exception "timeout")
      = (rule_based_match demoRegistry (fun _ => true) (fun _ => some true), false) :=
  ⟨by rw [demo_rule_eval_strong]; norm_num,
   c6_fast_path_short_circuit demoRegistry (fun _ => true) (fun _ => some true)
     true true (.exception "timeout") (by rw [demo_rule_eval_strong]; norm_num)⟩

/-- C7: when the semantic collaborator call fails (exception or
timeout, non-success status, or unparseable reply), match falls through
to tier 3: it returns the tier-1 rule result when the best rule score
was at least 0.3, and the fully unmatched result with confidence 0
otherwise. The embedding is total, so no exception escapes match. -/
theorem c7_semantic_failure_fallback (registry : List RegistrySpace)
    (kwHit : String → Bool) (patHit : String → Option Bool) (apiKey : Bool)
    (t : LLMTransport) (hf : llmFailure t) :
    (matchFn registry kwHit patHit true apiKey t).1
      = if 0.3 ≤ rule_score registry kwHit patHit
        then rule_based_match registry kwHit patHit
        else noMatch := by
  have hllm := llm_failure_noMatch registry apiKey t hf
  by_cases h8 : (0.8:ℚ) ≤ (rule_based_match registry kwHit patHit).confidence
  · have h3 := rule_conf_high_score registry kwHit patHit h8
    simp [matchFn, h8, h3]
  · by_cases h3 : (0.3:ℚ) ≤ rule_score registry kwHit patHit
    · have hm : (rule_based_match registry kwHit patHit).matched = true :=
        (rule_matched_iff registry kwHit patHit).mpr h3
      simp [matchFn, h8, hllm, noMatch, hm, h3]
    · have hm : ¬ (rule_based_match registry kwHit patHit).matched = true := by
        rw [rule_matched_iff registry kwHit patHit]
        exact h3
      simp only [Bool.not_eq_true] at hm
      simp [matchFn, h8, hllm, noMatch, hm, h3]

/-- Witness for C7 at a concrete registry: rule score 0.4 (two keyword
hits, no pattern), collaborator timeout, match returns the tier-1 rule
result. -/
theorem c7_semantic_failure_witness :
    llmFailure (.exception "ReadTimeout") ∧
    (matchFn demoRegistry (fun _ => true) (fun _ => none) true true (.exception "ReadTimeout")).1
      = rule_based_match demoRegistry (fun _ => true) (fun _ => none) := by
  refine ⟨Or.inl ⟨"ReadTimeout", rfl⟩, ?_⟩
  have h := c7_semantic_failure_fallback demoRegistry (fun _ => true) (fun _ => none)
    true (.exception "ReadTimeout") (Or.inl ⟨"ReadTimeout", rfl⟩)
  rw [h, demo_rule_score_weak, if_pos (show (0.3:ℚ) ≤ 2/5 by norm_num)]

/-- Evaluation of the rule tier on the silent registry: nothing
scores, so the rule tier is unmatched. -/
theorem demo_rule_eval_silent :
    rule_based_match demoSilentRegistry (fun _ => false) (fun _ => none) = noMatch := by
  norm_num [rule_based_match, rule_best, calculate_score, keywordAccum, patternBonus,
    demoSilentRegistry, noMatch]

/-- Evaluation of the semantic tier on the over-confident reply: the
reply is accepted and its confidence 3/2 is propagated verbatim. -/
theorem demo_llm_eval_overconfident :
    llm_intent_match demoSilentRegistry true demoOverConfident
      = ⟨true, some ⟨"demo", [], []⟩, 3/2, ["intent:LLM matched"]⟩ := by
  norm_num [llm_intent_match, demoSilentRegistry, demoOverConfident]
  simp

/-- C8, counterexample: with a registry the rule tier cannot match and
a well-formed semantic reply reporting matched=true with confidence
3/2 for a registered id, match returns a MatchResult whose confidence
exceeds 1 — refuting the claim that every MatchResult produced by
match has confidence in [0, 1]. -/
theorem c8_confidence_counterexample :
    ¬ ((matchFn demoSilentRegistry (fun _ => false) (fun _ => none)
          true true demoOverConfident).1.confidence ≤ 1) := by
  have hm : (matchFn demoSilentRegistry (fun _ => false) (fun _ => none)
        true true demoOverConfident).1
      = ⟨true, some ⟨"demo", [], []⟩, 3/2, ["intent:LLM matched"]⟩ := by
    norm_num [matchFn, demo_rule_eval_silent, demo_llm_eval_overconfident, noMatch]
  rw [hm]
  norm_num

/-- C8, amended: every MatchResult produced by match has confidence in
[0, 1] provided the semantic collaborator's parsed reply reports a
confidence in [0, 1]; the rule tier and the unmatched fallback satisfy
the bounds unconditionally, while an accepted semantic reply's
confidence is propagated verbatim. -/
theorem c8_confidence_bounds (registry : List RegistrySpace)
    (kwHit : String → Bool) (patHit : String → Option Bool)
    (useLLM apiKey : Bool) (t : LLMTransport)
    (hconf : ∀ m c sid rs st,
      t = LLMTransport.response st (.parsed m c sid rs) → 0 ≤ c ∧ c ≤ 1) :
    0 ≤ (matchFn registry kwHit patHit useLLM apiKey t).1.confidence ∧
    (matchFn registry kwHit patHit useLLM apiKey t).1.confidence ≤ 1 := by
  rcases matchFn_cases registry kwHit patHit useLLM apiKey t with h | ⟨h, hl⟩ | h
  · rw [h]
    exact ⟨rule_conf_nonneg registry kwHit patHit, rule_conf_le_one registry kwHit patHit⟩
  · rw [h]
    obtain ⟨m, c, sid, rs, ht, hc, hge⟩ := llm_matched_shape registry apiKey t hl
    obtain ⟨h0, h1⟩ := hconf m c sid rs 200 ht
    rw [hc]
    exact ⟨h0, h1⟩
  · rw [h]
    simp [noMatch]

/-- Witness for the amended C8 at a concrete input: a collaborator
timeout, for which the reply-confidence hypothesis holds vacuously. -/
theorem c8_confidence_bounds_witness :
    0 ≤ (matchFn demoSilentRegistry (fun _ => false) (fun _ => none)
          true true (.exception "boom")).1.confidence ∧
    (matchFn demoSilentRegistry (fun _ => false) (fun _ => none)
          true true (.exception "boom")).1.confidence ≤ 1 :=
  c8_confidence_bounds demoSilentRegistry (fun _ => false) (fun _ => none)
    true true (.exception "boom")
    (fun _ _ _ _ _ h => LLMTransport.noConfusion h)

/-- C3, counterexample: "product-swap" is a registered workflow id
whose module imports fine, yet when its entry point raises an
ImportError the executor re-raises (ValueError) instead of returning
the structured failure value — refuting the claim that execute raises
only for unresolvable identifiers and converts every exception raised
inside an entry point. -/
theorem c3_entrypoint_importerror_counterexample :
    (lookupSpaceModule "product-swap").isSome = true ∧
    execute demoImportRaisingEnv "product-swap"
      = .raised "Space module not found: spaces.product_swap. Error: boom" :=
  ⟨rfl, rfl⟩

/-- C3, amended: execute raises exactly when the id is unregistered,
the module import fails, or an ImportError is raised (by the import or
by the entry point itself); any other exception raised inside the
entry point — for either calling convention and for both sync and
async entry points — is caught and returned as the structured failure
value, and a normal return value is forwarded unchanged. -/
theorem c3_execute_error_contract (env : String → ModuleEnv) (spaceId : String) :
    (lookupSpaceModule spaceId = none →
       execute env spaceId = .raised ("Unknown space: " ++ spaceId)) ∧
    (∀ modPath fn style r,
       lookupSpaceModule spaceId = some (modPath, fn, style) →
       (env modPath).importResult = .ok () →
       (env modPath).run style = .ok r →
       execute env spaceId = .value r) ∧
    (∀ modPath fn style e,
       lookupSpaceModule spaceId = some (modPath, fn, style) →
       (env modPath).importResult = .ok () →
       (env modPath).run style = .raises (.other e) →
       execute env spaceId = .value ⟨false, some e, []⟩) ∧
    ((∃ msg, execute env spaceId = .raised msg) ↔
       lookupSpaceModule spaceId = none ∨
       ∃ modPath fn style,
         lookupSpaceModule spaceId = some (modPath, fn, style) ∧
         ((∃ e, (env modPath).importResult = .error e) ∨
          (∃ e, (env modPath).run style = .raises (.importError e)))) := by
  cases hl : lookupSpaceModule spaceId with
  | none =>
    refine ⟨fun _ => by simp [execute, hl], ?_, ?_, ?_⟩
    · intro modPath fn style r h
      exact absurd h (by simp)
    · intro modPath fn style e h
      exact absurd h (by simp)
    · constructor
      · intro _
        exact Or.inl rfl
      · intro _
        refine ⟨"Unknown space: " ++ spaceId, ?_⟩
        simp [execute, hl]
  | some entry =>
    obtain ⟨modPath, fn, style⟩ := entry
    refine ⟨fun h => absurd h (by simp), ?_, ?_, ?_⟩
    · intro modPath2 fn2 style2 r hsome hi hr
      simp only [Option.some.injEq, Prod.mk.injEq] at hsome
      obtain ⟨rfl, rfl, rfl⟩ := hsome
      simp [execute, hl, hi, hr]
    · intro modPath2 fn2 style2 e hsome hi hr
      simp only [Option.some.injEq, Prod.mk.injEq] at hsome
      obtain ⟨rfl, rfl, rfl⟩ := hsome
      simp [execute, hl, hi, hr]
    · cases hi : (env modPath).importResult with
      | error e =>
        constructor
        · intro _
          exact Or.inr ⟨modPath, fn, style, rfl, Or.inl ⟨e, hi⟩⟩
        · intro _
          refine ⟨"Space module not found: " ++ modPath ++ ". Error: " ++ e, ?_⟩
          simp [execute, hl, hi]
      | ok u =>
        cases hr : (env modPath).run style with
        | ok r =>
          constructor
          · rintro ⟨msg, hmsg⟩
            simp [execute, hl, hi, hr] at hmsg
          · rintro (hnone | ⟨modPath2, fn2, style2, hsome, hbad⟩)
            · exact absurd hnone (by simp)
            · simp only [Option.some.injEq, Prod.mk.injEq] at hsome
              obtain ⟨rfl, rfl, rfl⟩ := hsome
              rcases hbad with ⟨e, he⟩ | ⟨e, he⟩
              · rw [hi] at he
                exact absurd he (by simp)
              · rw [hr] at he
                exact absurd he (by simp)
        | raises exc =>
          cases exc with
          | importError e =>
            constructor
            · intro _
              exact Or.inr ⟨modPath, fn, style, rfl, Or.inr ⟨e, hr⟩⟩
            · intro _
              refine ⟨"Space module not found: " ++ modPath ++ ". Error: " ++ e, ?_⟩
              simp [execute, hl, hi, hr]
          | other e =>
            constructor
            · rintro ⟨msg, hmsg⟩
              simp [execute, hl, hi, hr] at hmsg
            · rintro (hnone | ⟨modPath2, fn2, style2, hsome, hbad⟩)
              · exact absurd hnone (by simp)
              · simp only [Option.some.injEq, Prod.mk.injEq] at hsome
                obtain ⟨rfl, rfl, rfl⟩ := hsome
                rcases hbad with ⟨e2, he⟩ | ⟨e2, he⟩
                · rw [hi] at he
                  exact absurd he (by simp)
                · rw [hr] at he
                  exact absurd he (by simp)

/-- Witness for the amended C3: a registered id whose entry point
raises an ordinary exception is converted into the structured failure
value. -/
theorem c3_execute_error_contract_witness :
    execute demoFailingEnv "product-swap" = .value ⟨false, some "stage blew up", []⟩ :=
  (c3_execute_error_contract demoFailingEnv "product-swap").2.2.1
    "spaces.product_swap" "product_swap_workflow" .kwargs "stage blew up" rfl rfl rfl

/-- C1, counterexample: a store-display-banner run in which the single
stage settles with an error result (no artifact produced) still
returns success=true — refuting the claim that every multi-artifact
workflow returns success=true iff at least one artifact was
produced. -/
theorem c1_store_banner_success_counterexample :
    (store_banner_fan_in [StageOutcome.val (GenResult.err "generation failed")]).success = true ∧
    store_banner_artifact_count
      (store_banner_fan_in [StageOutcome.val (GenResult.err "generation failed")]) = 0 :=
  ⟨rfl, rfl⟩

/-- C1, amended: for multiproduct_tryon and product_swap the overall
result has success=true iff at least one artifact was produced, and a
zero-artifact run carries as top-level error the first captured
per-stage exception message (a canned message when no stage raised);
store_display_banner does not obey this policy. -/
theorem c1_fan_in_termination_policy (rs : List (StageOutcome GenResult))
    (gs : List SwapGatherItem) :
    ((multiproduct_fan_in rs).success = true ↔ ∃ x ∈ rs, x.isOkGen = true) ∧
    ((multiproduct_fan_in rs).success = false →
       (multiproduct_fan_in rs).error
         = some ((stage_exc_msgs rs).headD "All image generations failed")) ∧
    ((product_swap_fan_in gs).success = true ↔ ∃ x ∈ gs, x.isAsset = true) ∧
    ((product_swap_fan_in gs).success = false →
       (product_swap_fan_in gs).error
         = some ((swap_exc_msgs gs).headD "All image generations failed")) := by
  refine ⟨?_, ?_, ?_, ?_⟩
  · by_cases h : (multiproduct_collect rs).length = 0
    · have hnil : multiproduct_collect rs = [] := List.length_eq_zero.mp h
      have hall := (multiproduct_collect_nil_iff rs).mp hnil
      simp only [multiproduct_fan_in, h, if_true]
      constructor
      · intro hfalse
        simp at hfalse
      · rintro ⟨x, hx, hok⟩
        rw [hall x hx] at hok
        simp at hok
    · simp only [multiproduct_fan_in, h, if_false]
      constructor
      · intro _
        by_contra hne
        push_neg at hne
        have hall : ∀ x ∈ rs, x.isOkGen = false := by
          intro x hx
          have := hne x hx
          simpa using this
        have := (multiproduct_collect_nil_iff rs).mpr hall
        rw [this] at h
        simp at h
      · intro _
        trivial
  · intro hs
    by_cases h : (multiproduct_collect rs).length = 0
    · simp [multiproduct_fan_in, h]
    · simp [multiproduct_fan_in, h] at hs
  · by_cases h : (swap_assets gs).length = 0
    · have hnil : swap_assets gs = [] := List.length_eq_zero.mp h
      have hall := (swap_assets_nil_iff gs).mp hnil
      simp only [product_swap_fan_in, h, if_true]
      constructor
      · intro hfalse
        simp at hfalse
      · rintro ⟨x, hx, hok⟩
        rw [hall x hx] at hok
        simp at hok
    · simp only [product_swap_fan_in, h, if_false]
      constructor
      · intro _
        by_contra hne
        push_neg at hne
        have hall : ∀ x ∈ gs, x.isAsset = false := by
          intro x hx
          have := hne x hx
          simpa using this
        have := (swap_assets_nil_iff gs).mpr hall
        rw [this] at h
        simp at h
      · intro _
        trivial
  · intro hs
    by_cases h : (swap_assets gs).length = 0
    · simp [product_swap_fan_in, h]
    · simp [product_swap_fan_in, h] at hs

/-- Witness for the amended C1: a multiproduct run in which both
stages fail (one exception, one error result) surfaces the exception
message; a product-swap run whose only stage raised surfaces its
message; and a one-success multiproduct run reports success. -/
theorem c1_fan_in_termination_policy_witness :
    (multiproduct_fan_in [StageOutcome.exc "boom", StageOutcome.val (GenResult.err "x")]).error
      = some "boom" ∧
    (product_swap_fan_in [SwapGatherItem.exc "swap boom"]).error = some "swap boom" ∧
    (multiproduct_fan_in [StageOutcome.val (GenResult.ok "u" "i" "t" "s")]).success = true := by
  have h := c1_fan_in_termination_policy
    [StageOutcome.exc "boom", StageOutcome.val (GenResult.err "x")]
    [SwapGatherItem.exc "swap boom"]
  have h2 := c1_fan_in_termination_policy
    [StageOutcome.val (GenResult.ok "u" "i" "t" "s")] []
  refine ⟨?_, ?_, ?_⟩
  · have := h.2.1 (by decide)
    simpa using this
  · have := h.2.2.2 (by decide)
    simpa using this
  · exact h2.1.mpr ⟨StageOutcome.val (GenResult.ok "u" "i" "t" "s"), by decide, rfl⟩

/-- C2, counterexample: a store-display-banner request for 20
variations fans out exactly 20 generation tasks, not 15 — refuting the
claim that every orchestrator clamps the requested number of dependent
stages into [1, 15]. -/
theorem c2_store_banner_no_clamp_counterexample :
    (store_banner_fan_out ["p"] "negative" 20).map List.length = Except.ok 20 ∧
    (store_banner_fan_out ["p"] "negative" 20).map List.length ≠ Except.ok 15 := by
  refine ⟨rfl, ?_⟩
  intro h
  rw [show (store_banner_fan_out ["p"] "negative" 20).map List.length = Except.ok 20 from rfl] at h
  simp at h

/-- C2, amended: multiproduct_tryon clamps the requested number of
variations into [1, 15] before the fan-out (in particular 20 clamps to
15), but store_display_banner launches exactly the requested number of
stages with no clamping (a request of 20 fans out 20 tasks). -/
theorem c2_variation_clamp (n : ℤ) :
    1 ≤ multiproduct_clamp_variations n ∧
    multiproduct_clamp_variations n ≤ 15 ∧
    multiproduct_clamp_variations 20 = 15 ∧
    (store_banner_fan_out ["p"] "negative" 20).map List.length = Except.ok 20 := by
  refine ⟨?_, ?_, rfl, rfl⟩
  · exact le_min (le_max_right n 1) (by norm_num)
  · exact min_le_right _ _

/-- C4, counterexample: a store-display-banner fan-out of 3 stages in
which exactly the second raises returns zero artifacts and failure,
instead of the 2 sibling artifacts — refuting the claim that the
orchestrator always awaits all siblings and returns the N−1 successful
artifacts. -/
theorem c4_store_banner_abort_counterexample :
    (store_banner_fan_in demoBannerOutcomes).success = false ∧
    (store_banner_fan_in demoBannerOutcomes).outputAssets = [] ∧
    (store_banner_fan_in demoBannerOutcomes).error = some "boom" :=
  ⟨rfl, rfl, rfl⟩

/-- C4, amended: for multiproduct_tryon and product_swap, a fan-out in
which exactly one stage raises and every sibling succeeds settles all
siblings: the result is success with the N−1 sibling artifacts in
submission order and exactly the one captured failure;
store_display_banner instead aborts the fan-in on the raising stage. -/
theorem c4_isolated_stage_failure (as bs : List (StageOutcome GenResult)) (m : String)
    (ga gb : List SwapGatherItem) (m2 : String)
    (ha : ∀ x ∈ as ++ bs, x.isOkGen = true)
    (hne : as.length + bs.length ≠ 0)
    (ha2 : ∀ x ∈ ga ++ gb, x.isAsset = true)
    (hne2 : ga.length + gb.length ≠ 0) :
    (multiproduct_fan_in (as ++ StageOutcome.exc m :: bs)).success = true ∧
    (multiproduct_fan_in (as ++ StageOutcome.exc m :: bs)).outputAssets
      = multiproduct_collect as ++ multiproduct_collect bs ∧
    (multiproduct_fan_in (as ++ StageOutcome.exc m :: bs)).outputAssets.length
      = (as ++ StageOutcome.exc m :: bs).length - 1 ∧
    stage_exc_msgs (as ++ StageOutcome.exc m :: bs) = [m] ∧
    (product_swap_fan_in (ga ++ SwapGatherItem.exc m2 :: gb)).success = true ∧
    (product_swap_fan_in (ga ++ SwapGatherItem.exc m2 :: gb)).outputAssets
      = swap_assets ga ++ swap_assets gb ∧
    (product_swap_fan_in (ga ++ SwapGatherItem.exc m2 :: gb)).outputAssets.length
      = (ga ++ SwapGatherItem.exc m2 :: gb).length - 1 ∧
    swap_exc_msgs (ga ++ SwapGatherItem.exc m2 :: gb) = [m2] := by
  have haa : ∀ x ∈ as, x.isOkGen = true :=
    fun x hx => ha x (List.mem_append_left bs hx)
  have hab : ∀ x ∈ bs, x.isOkGen = true :=
    fun x hx => ha x (List.mem_append_right as hx)
  have hga : ∀ x ∈ ga, x.isAsset = true :=
    fun x hx => ha2 x (List.mem_append_left gb hx)
  have hgb : ∀ x ∈ gb, x.isAsset = true :=
    fun x hx => ha2 x (List.mem_append_right ga hx)
  obtain ⟨hlena, hexca⟩ := multiproduct_all_ok as haa
  obtain ⟨hlenb, hexcb⟩ := multiproduct_all_ok bs hab
  obtain ⟨hlega, hexga⟩ := swap_all_assets ga hga
  obtain ⟨hlegb, hexgb⟩ := swap_all_assets gb hgb
  have hcol : multiproduct_collect (as ++ StageOutcome.exc m :: bs)
      = multiproduct_collect as ++ multiproduct_collect bs := by
    simp [multiproduct_collect, List.filterMap_append, List.filterMap_cons]
  have hmsgs : stage_exc_msgs (as ++ StageOutcome.exc m :: bs)
      = stage_exc_msgs as ++ m :: stage_exc_msgs bs := by
    simp [stage_exc_msgs, List.filterMap_append, List.filterMap_cons]
  have hmsgs1 : stage_exc_msgs (as ++ StageOutcome.exc m :: bs) = [m] := by
    rw [hmsgs, hexca, hexcb]
    rfl
  have hcollen : (multiproduct_collect as ++ multiproduct_collect bs).length
      = as.length + bs.length := by
    rw [List.length_append, hlena, hlenb]
  have hnezero : (multiproduct_collect as ++ multiproduct_collect bs).length ≠ 0 := by
    rw [hcollen]; exact hne
  have hfan : multiproduct_fan_in (as ++ StageOutcome.exc m :: bs)
      = ⟨true, multiproduct_collect as ++ multiproduct_collect bs, none⟩ := by
    simp only [multiproduct_fan_in]
    rw [hcol, if_neg hnezero]
  have hswpcol : swap_assets (ga ++ SwapGatherItem.exc m2 :: gb)
      = swap_assets ga ++ swap_assets gb := by
    simp [swap_assets, List.filterMap_append, List.filterMap_cons]
  have hswpmsgs0 : swap_exc_msgs (ga ++ SwapGatherItem.exc m2 :: gb)
      = swap_exc_msgs ga ++ m2 :: swap_exc_msgs gb := by
    simp [swap_exc_msgs, List.filterMap_append, List.filterMap_cons]
  have hswpmsgs : swap_exc_msgs (ga ++ SwapGatherItem.exc m2 :: gb) = [m2] := by
    rw [hswpmsgs0, hexga, hexgb]
    rfl
  have hswplen : (swap_assets ga ++ swap_assets gb).length = ga.length + gb.length := by
    rw [List.length_append, hlega, hlegb]
  have hswpne : (swap_assets ga ++ swap_assets gb).length ≠ 0 := by
    rw [hswplen]; exact hne2
  have hswpfan : product_swap_fan_in (ga ++ SwapGatherItem.exc m2 :: gb)
      = ⟨true, swap_assets ga ++ swap_assets gb, none⟩ := by
    simp only [product_swap_fan_in]
    rw [hswpcol, if_neg hswpne]
  refine ⟨by rw [hfan], by rw [hfan], ?_, hmsgs1, by rw [hswpfan], by rw [hswpfan], ?_, hswpmsgs⟩
  · rw [hfan]
    simp only [List.length_append, List.length_cons]
    rw [hcollen] at *
    simp [List.length_append]
    omega
  · rw [hswpfan]
    simp only [List.length_append, List.length_cons]
    rw [hswplen] at *
    simp [List.length_append]
    omega

/-- Witness for the amended C4: two sibling successes around one
raising stage yield both artifacts in order plus the single captured
failure, for both workflows. -/
theorem c4_isolated_stage_failure_witness :
    (multiproduct_fan_in
        [StageOutcome.val (GenResult.ok "u1" "i1" "t1" "s"),
         StageOutcome.exc "boom",
         StageOutcome.val (GenResult.ok "u2" "i2" "t2" "s")]).success = true ∧
    (multiproduct_fan_in
        [StageOutcome.val (GenResult.ok "u1" "i1" "t1" "s"),
         StageOutcome.exc "boom",
         StageOutcome.val (GenResult.ok "u2" "i2" "t2" "s")]).outputAssets
      = multiproduct_collect [StageOutcome.val (GenResult.ok "u1" "i1" "t1" "s")]
        ++ multiproduct_collect [StageOutcome.val (GenResult.ok "u2" "i2" "t2" "s")] ∧
    (multiproduct_fan_in
        [StageOutcome.val (GenResult.ok "u1" "i1" "t1" "s"),
         StageOutcome.exc "boom",
         StageOutcome.val (GenResult.ok "u2" "i2" "t2" "s")]).outputAssets.length
      = ([StageOutcome.val (GenResult.ok "u1" "i1" "t1" "s"),
          StageOutcome.exc "boom",
          StageOutcome.val (GenResult.ok "u2" "i2" "t2" "s")] : List (StageOutcome GenResult)).length - 1 ∧
    stage_exc_msgs
        [StageOutcome.val (GenResult.ok "u1" "i1" "t1" "s"),
         StageOutcome.exc "boom",
         StageOutcome.val (GenResult.ok "u2" "i2" "t2" "s")] = ["boom"] ∧
    (product_swap_fan_in
        [SwapGatherItem.asset ⟨"u" , "t", "i", "s"⟩, SwapGatherItem.exc "swap boom"]).success = true ∧
    (product_swap_fan_in
        [SwapGatherItem.asset ⟨"u" , "t", "i", "s"⟩, SwapGatherItem.exc "swap boom"]).outputAssets
      = swap_assets [SwapGatherItem.asset ⟨"u" , "t", "i", "s"⟩] ++ swap_assets [] ∧
    (product_swap_fan_in
        [SwapGatherItem.asset ⟨"u" , "t", "i", "s"⟩, SwapGatherItem.exc "swap boom"]).outputAssets.length
      = ([SwapGatherItem.asset ⟨"u" , "t", "i", "s"⟩, SwapGatherItem.exc "swap boom"] : List SwapGatherItem).length - 1 ∧
    swap_exc_msgs
        [SwapGatherItem.asset ⟨"u" , "t", "i", "s"⟩, SwapGatherItem.exc "swap boom"] = ["swap boom"] :=
  c4_isolated_stage_failure
    [StageOutcome.val (GenResult.ok "u1" "i1" "t1" "s")]
    [StageOutcome.val (GenResult.ok "u2" "i2" "t2" "s")]
    "boom"
    [SwapGatherItem.asset ⟨"u" , "t", "i", "s"⟩]
    []
    "swap boom"
    (by decide) (by decide) (by decide) (by decide)

/-- C9: after clear_events, draining the progress list and draining the
image list both return empty lists, whatever events had been recorded
before the reset. -/
theorem c9_reset_then_drain_empty (s : BusState) :
    (get_progress_events (clear_events s)).2.heap (get_progress_events (clear_events s)).1
      = [] ∧
    (get_image_events (clear_events s)).2.heap (get_image_events (clear_events s)).1
      = [] := by
  constructor
  · have hv : (get_progress_events (clear_events s)).2.heap
        (get_progress_events (clear_events s)).1
        = (clear_events s).heap ((clear_events s).eventsRef) := by
      simp [get_progress_events, heapWrite]
    rw [hv]
    simp only [clear_events, heapWrite]
    by_cases h : s.eventsRef = s.imagesRef <;> simp [h]
  · have hv : (get_image_events (clear_events s)).2.heap
        (get_image_events (clear_events s)).1
        = (clear_events s).heap ((clear_events s).imagesRef) := by
      simp [get_image_events, heapWrite]
    rw [hv]
    simp only [clear_events, heapWrite]
    simp

/-- C10: draining returns a snapshot, not the live store. The drained
reference holds the store content at drain time; overwriting the
returned list does not change the stored list; and events recorded
after the drain never appear behind the reference returned by the
earlier drain. Both the progress list and the image list behave this
way. -/
theorem c10_drain_returns_snapshot (s : BusState) (h : s.WellFormed) :
    (get_progress_events s).2.heap (get_progress_events s).1 = s.heap s.eventsRef ∧
    (∀ v, (heapWrite (get_progress_events s).2 (get_progress_events s).1 v).heap
        ((get_progress_events s).2.eventsRef) = s.heap s.eventsRef) ∧
    (∀ id st ts w msg,
       (stream_progress (get_progress_events s).2 id st ts w msg).heap
         (get_progress_events s).1 = s.heap s.eventsRef) ∧
    (get_image_events s).2.heap (get_image_events s).1 = s.heap s.imagesRef ∧
    (∀ v, (heapWrite (get_image_events s).2 (get_image_events s).1 v).heap
        ((get_image_events s).2.imagesRef) = s.heap s.imagesRef) ∧
    (∀ url lb ts,
       (stream_image (get_image_events s).2 url lb ts).heap
         (get_image_events s).1 = s.heap s.imagesRef) := by
  obtain ⟨he, hi, _⟩ := h
  have hne : s.eventsRef ≠ s.next := Nat.ne_of_lt he
  have hni : s.imagesRef ≠ s.next := Nat.ne_of_lt hi
  refine ⟨?_, ?_, ?_, ?_, ?_, ?_⟩
  · simp [get_progress_events, heapWrite]
  · intro v
    simp [get_progress_events, heapWrite, hne]
  · intro id st ts w msg
    simp [stream_progress, get_progress_events, heapWrite, hne, Ne.symm hne]
  · simp [get_image_events, heapWrite]
  · intro v
    simp [get_image_events, heapWrite, hni]
  · intro url lb ts
    simp [stream_image, get_image_events, heapWrite, hni, Ne.symm hni]

/-- Witness for C10 at a concrete bus state holding one progress and
one image event. -/
theorem c10_drain_returns_snapshot_witness :
    demoBus.WellFormed ∧
    (heapWrite (get_progress_events demoBus).2 (get_progress_events demoBus).1 []).heap
        ((get_progress_events demoBus).2.eventsRef)
      = [Event.progress "analyze-request" "started" 0 (some 15) none] ∧
    (stream_image (get_image_events demoBus).2 "https://x/later.png" "Variation 2" 9).heap
        (get_image_events demoBus).1
      = [Event.image "https://x/img.png" "First shot" 1] := by
  have hwf : demoBus.WellFormed := by
    refine ⟨?_, ?_, ?_⟩ <;> simp [demoBus, BusState.WellFormed]
  have h := c10_drain_returns_snapshot demoBus hwf
  refine ⟨hwf, ?_, ?_⟩
  · rw [h.2.1 []]
    rfl
  · rw [h.2.2.2.2.2 "https://x/later.png" "Variation 2" 9]
    rfl
